import Mathlib

/-!
Shallow embedding of the polled I2C sensor drivers of this repository:

* Variant A — `tinovi-leaf-sensor/tinovi_leaf_wetness.h` (`LeafWetness`):
  single-phase wait, decodes two little-endian signed 16-bit values.
* Variant B — first `Sen0590` rangefinder (single-phase wait, availability
  polled, aborts the READY write on a transmission error).
* Variant C — second `Sen0590` rangefinder (two-phase wait: request-settle
  then read-settle, unconditional read).

Each C++ `loop()` is embedded as a pure function from the driver's fields
and a per-call environment (the `millis()` value, the `endTransmission()`
status, the `Wire.available()` count and the bytes `Wire.read()` returns)
to the updated fields plus a record of the bus operations performed and the
values published.
-/

/-- `unsigned long` on the ESP32 is 32 bits; `millis()` arithmetic wraps
modulo `2^32`. -/
def W32 : Nat := 4294967296

/-- `a - b` computed in C `unsigned long` (32-bit wrap-around) arithmetic,
as in `millis() - startRequest`. -/
def sub32 (a b : Nat) : Nat := (a % W32 + (W32 - b % W32)) % W32

/-- Conversion of a C `int` (what `Wire.read()` returns) to a `byte`
(`uint8_t`), as in `pointer[0] = Wire.read()`: reduction modulo 256. -/
def toByte (i : Int) : Nat := (i % 256).toNat

/-- Reinterpretation of two bytes stored little-endian in memory as an
`int16_t`, as done via `byte *pointer = (byte *)&ret`. -/
def int16OfBytes (lo hi : Nat) : Int :=
  let u : Nat := lo + 256 * hi
  if u < 32768 then (u : Int) else (u : Int) - 65536

/-- The inputs one `loop()` call draws from the environment: the current
`millis()` value, the status `endTransmission()` returns, the count
`Wire.available()` returns, and the bytes successive `Wire.read()` calls
return (`-1` when nothing is buffered, as in Arduino). -/
structure Env where
  now : Nat
  endStatus : Nat
  available : Nat
  readData : List Int
deriving Repr, DecidableEq

/-- The externally visible effects of one `loop()` call: completed write
transactions `(address, bytes)`, `requestFrom(address, n)` calls, the number
of `Wire.read()` calls, and the values published on each channel. -/
structure Effects where
  writes : List (Nat × List Nat)
  requests : List (Nat × Nat)
  readCount : Nat
  pubWetness : List ℚ
  pubTemperature : List ℚ
  pubDistance : List Int
deriving Repr, DecidableEq

/-- The empty effect record: no bus traffic, nothing published. -/
def noEff : Effects :=
  { writes := [], requests := [], readCount := 0,
    pubWetness := [], pubTemperature := [], pubDistance := [] }

namespace VariantA

/-- I2C address of the Tinovi leaf sensor (`#define address 0x61`). -/
def address : Nat := 0x61

/-- Settle delay in ms (`#define wait_period 300`). -/
def wait_period : Nat := 300

/-- Modelled from the spec: the measurement-request command register
`REG_READ_ST` is defined in `LeafSens.h`, which is not among the embedded
sources; its concrete value is irrelevant to every property proved below. -/
def REG_READ_ST : Nat := 1

/-- Modelled from the spec: the data register `REG_DATA` is defined in
`LeafSens.h`, which is not among the embedded sources; its concrete value is
irrelevant to every property proved below. -/
def REG_DATA : Nat := 2

/-- The `LeafWetnessSensorState` enum of the wetness driver. -/
inductive LeafWetnessSensorState where
  | REQUEST
  | WAITING
  | READY
  | READ
  | IDLE
deriving Repr, DecidableEq

/-- The mutable fields of the `LeafWetness` component. -/
structure LeafWetness where
  startRequest : Nat
  state : LeafWetnessSensorState
deriving Repr, DecidableEq

/-- `LeafWetness::update()`: unconditionally restart the state machine. -/
def update (m : LeafWetness) : LeafWetness :=
  { m with state := .REQUEST }

/-- Body of the `case READ:` of `LeafWetness::loop()`, shared with the
`case READY:` which falls through into it (no `break`): when exactly 4 bytes
are available, read them pairwise into `int16_t` values, divide by 100.0,
publish wetness then temperature, and go `IDLE`; otherwise do nothing. -/
def readPhase (m : LeafWetness) (env : Env) (eff : Effects) :
    LeafWetness × Effects :=
  if env.available = 4 then
    let b0 := toByte (env.readData.getD 0 (-1))
    let b1 := toByte (env.readData.getD 1 (-1))
    let b2 := toByte (env.readData.getD 2 (-1))
    let b3 := toByte (env.readData.getD 3 (-1))
    let wet : ℚ := (int16OfBytes b0 b1 : ℚ) / 100
    let temp : ℚ := (int16OfBytes b2 b3 : ℚ) / 100
    ({ m with state := .IDLE },
     { eff with readCount := eff.readCount + 4,
                pubWetness := eff.pubWetness ++ [wet],
                pubTemperature := eff.pubTemperature ++ [temp] })
  else
    (m, eff)

/-- `LeafWetness::loop()`. In `REQUEST` the `endTransmission()` status is
ignored. In `READY` the status is ignored as well, `requestFrom(address, 4)`
is issued, `state = READ`, and control falls through into the `READ` case. -/
def loop (m : LeafWetness) (env : Env) : LeafWetness × Effects :=
  match m.state with
  | .REQUEST =>
      ({ startRequest := env.now, state := .WAITING },
       { noEff with writes := [(address, [REG_READ_ST])] })
  | .WAITING =>
      if wait_period < sub32 env.now m.startRequest then
        ({ m with state := .READY }, noEff)
      else
        (m, noEff)
  | .READY =>
      readPhase { m with state := .READ } env
        { noEff with writes := [(address, [REG_DATA])],
                     requests := [(address, 4)] }
  | .READ =>
      readPhase m env noEff
  | .IDLE =>
      (m, noEff)

/-- Iterated `loop()` calls (effects dropped), for repetition properties. -/
def loopMany (m : LeafWetness) (envs : List Env) : LeafWetness :=
  envs.foldl (fun s e => (loop s e).1) m

end VariantA

namespace VariantB

/-- I2C address of the SEN0590 rangefinder (`#define address 0x74`). -/
def address : Nat := 0x74

/-- Settle delay in ms (`#define wait_period 50`). -/
def wait_period : Nat := 50

/-- The `Sen0590SensorState` enum of the first rangefinder variant. -/
inductive Sen0590SensorState where
  | REQUEST
  | WAITING
  | READY
  | READ
  | IDLE
deriving Repr, DecidableEq

/-- The mutable fields of the first `Sen0590` component. -/
structure Sen0590 where
  startRequest : Nat
  state : Sen0590SensorState
deriving Repr, DecidableEq

/-- `Sen0590::update()`: unconditionally restart the state machine. -/
def update (m : Sen0590) : Sen0590 :=
  { m with state := .REQUEST }

/-- `Sen0590::loop()` of the first variant. In `READY` a non-zero
`endTransmission()` status returns early with the state unchanged. In
`READ` the measurement is decoded as `buf[0] * 0x100 + buf[1] + 10` when
exactly 2 bytes are available; the source sets no new state there. -/
def loop (m : Sen0590) (env : Env) : Sen0590 × Effects :=
  match m.state with
  | .REQUEST =>
      ({ startRequest := env.now, state := .WAITING },
       { noEff with writes := [(address, [0x10, 0xB0])] })
  | .WAITING =>
      if wait_period < sub32 env.now m.startRequest then
        ({ m with state := .READY }, noEff)
      else
        (m, noEff)
  | .READY =>
      if env.endStatus ≠ 0 then
        (m, { noEff with writes := [(address, [0x02])] })
      else
        ({ m with state := .READ },
         { noEff with writes := [(address, [0x02])],
                      requests := [(address, 2)] })
  | .READ =>
      if env.available = 2 then
        let b0 := env.readData.getD 0 (-1)
        let b1 := env.readData.getD 1 (-1)
        let distance : Int := b0 * 256 + b1 + 10
        (m, { noEff with readCount := 2, pubDistance := [distance] })
      else
        (m, noEff)
  | .IDLE =>
      (m, noEff)

/-- Iterated `loop()` calls (effects dropped), for repetition properties. -/
def loopMany (m : Sen0590) (envs : List Env) : Sen0590 :=
  envs.foldl (fun s e => (loop s e).1) m

end VariantB

namespace VariantC

/-- I2C address of the SEN0590 rangefinder (`#define address 0x74`). -/
def address : Nat := 0x74

/-- Request settle delay in ms (`#define request_wait_period 50`). -/
def request_wait_period : Nat := 50

/-- Read settle delay in ms (`#define read_wait_period 20`). -/
def read_wait_period : Nat := 20

/-- The `Sen0590SensorState` enum of the two-phase rangefinder variant
(no `WAITING` state). -/
inductive Sen0590SensorState where
  | REQUEST
  | READY
  | READ
  | IDLE
deriving Repr, DecidableEq

/-- The mutable fields of the two-phase `Sen0590` component. -/
structure Sen0590 where
  startRequest : Nat
  startRead : Nat
  state : Sen0590SensorState
deriving Repr, DecidableEq

/-- `Sen0590::update()`: unconditionally restart the state machine. -/
def update (m : Sen0590) : Sen0590 :=
  { m with state := .REQUEST }

/-- `Sen0590::loop()` of the two-phase variant. `READY` waits out the
request settle, then issues the read-address write, aborting on a non-zero
status without touching `state` or `startRead`. `READ` waits out the read
settle, then requests 2 bytes, reads them unconditionally, publishes
`buf[0] * 0x100 + buf[1] + 10` and goes `IDLE`. -/
def loop (m : Sen0590) (env : Env) : Sen0590 × Effects :=
  match m.state with
  | .REQUEST =>
      ({ m with state := .READY, startRequest := env.now },
       { noEff with writes := [(address, [0x10, 0xB0])] })
  | .READY =>
      if request_wait_period > sub32 env.now m.startRequest then
        (m, noEff)
      else if env.endStatus ≠ 0 then
        (m, { noEff with writes := [(address, [0x02])] })
      else
        ({ m with state := .READ, startRead := env.now },
         { noEff with writes := [(address, [0x02])] })
  | .READ =>
      if read_wait_period > sub32 env.now m.startRead then
        (m, noEff)
      else
        let b0 := env.readData.getD 0 (-1)
        let b1 := env.readData.getD 1 (-1)
        let distance : Int := b0 * 256 + b1 + 10
        ({ m with state := .IDLE },
         { noEff with requests := [(address, 2)], readCount := 2,
                      pubDistance := [distance] })
  | .IDLE =>
      (m, noEff)

/-- Iterated `loop()` calls (effects dropped), for repetition properties. -/
def loopMany (m : Sen0590) (envs : List Env) : Sen0590 :=
  envs.foldl (fun s e => (loop s e).1) m

end VariantC

/-- On a 32-bit counter, when the clock has not wrapped, the C subtraction
`now - start` agrees with natural subtraction. -/
theorem sub32_eq (a b : Nat) (h1 : b ≤ a) (h2 : a < W32) : sub32 a b = a - b := by
  unfold sub32 W32
  unfold W32 at h2
  have hb : b < 4294967296 := lt_of_le_of_lt h1 h2
  rw [Nat.mod_eq_of_lt h2, Nat.mod_eq_of_lt hb]
  omega

/-- A C `int` holding a value in `0 .. 255` converts to exactly that byte. -/
theorem toByte_coe (b : Nat) (h : b < 256) : toByte (b : Int) = b := by
  unfold toByte
  omega

/-- C1 counterexample: at elapsed time exactly equal to `wait_period`
(300 ms for the wetness driver, 50 ms for the rangefinder) a `poll()` in
`WAITING` leaves the state at `WAITING`, although the claim includes the
boundary in the transition to `READY`: the source compares with a strict
`wait_period < millis() - startRequest`. -/
theorem C1_boundary_counterexample :
    VariantA.wait_period ≤ 300 - 0
  ∧ (VariantA.loop ⟨0, .WAITING⟩ ⟨300, 0, 0, []⟩).1.state
      = VariantA.LeafWetnessSensorState.WAITING
  ∧ VariantB.wait_period ≤ 50 - 0
  ∧ (VariantB.loop ⟨0, .WAITING⟩ ⟨50, 0, 0, []⟩).1.state
      = VariantB.Sen0590SensorState.WAITING := by
  decide

/-- C1 (amended): for variants A and B, a `poll()` in `WAITING` with
elapsed time `e = now - startRequest` (no clock wrap) moves the state to
`READY` exactly when `e > wait_period` and leaves it at `WAITING` exactly
when `e ≤ wait_period`: the boundary `e = wait_period` stays `WAITING`. -/
theorem C1_waiting_threshold (sa sb : Nat) (env : Env)
    (hsa : sa ≤ env.now) (hsb : sb ≤ env.now) (hn : env.now < W32) :
    ((VariantA.loop ⟨sa, .WAITING⟩ env).1.state
        = if VariantA.wait_period < env.now - sa then .READY else .WAITING)
  ∧ ((VariantB.loop ⟨sb, .WAITING⟩ env).1.state
        = if VariantB.wait_period < env.now - sb then .READY else .WAITING) := by
  constructor
  · have e1 : VariantA.loop ⟨sa, .WAITING⟩ env
        = if VariantA.wait_period < sub32 env.now sa
          then (⟨sa, .READY⟩, noEff) else (⟨sa, .WAITING⟩, noEff) := rfl
    rw [e1, sub32_eq env.now sa hsa hn]
    by_cases hc : VariantA.wait_period < env.now - sa
    · rw [if_pos hc, if_pos hc]
    · rw [if_neg hc, if_neg hc]
  · have e1 : VariantB.loop ⟨sb, .WAITING⟩ env
        = if VariantB.wait_period < sub32 env.now sb
          then (⟨sb, .READY⟩, noEff) else (⟨sb, .WAITING⟩, noEff) := rfl
    rw [e1, sub32_eq env.now sb hsb hn]
    by_cases hc : VariantB.wait_period < env.now - sb
    · rw [if_pos hc, if_pos hc]
    · rw [if_neg hc, if_neg hc]

/-- C1 witness: one tick past the threshold both variants leave `WAITING`
for `READY`. -/
theorem C1_waiting_threshold_witness :
    (VariantA.loop ⟨0, .WAITING⟩ ⟨301, 0, 0, []⟩).1.state
      = VariantA.LeafWetnessSensorState.READY
  ∧ (VariantB.loop ⟨0, .WAITING⟩ ⟨301, 0, 0, []⟩).1.state
      = VariantB.Sen0590SensorState.READY := by
  have h := C1_waiting_threshold 0 0 ⟨301, 0, 0, []⟩
    (by decide) (by decide) (by decide)
  exact ⟨by rw [h.1]; decide, by rw [h.2]; decide⟩

/-- C2: in every variant `update()` (the trigger) puts the state machine
into `REQUEST` immediately, whatever the prior state and the prior phase
timestamps — last trigger wins. -/
theorem C2_trigger_preempts (a : VariantA.LeafWetness) (b : VariantB.Sen0590)
    (c : VariantC.Sen0590) :
    (VariantA.update a).state = .REQUEST
  ∧ (VariantB.update b).state = .REQUEST
  ∧ (VariantC.update c).state = .REQUEST :=
  ⟨rfl, rfl, rfl⟩

/-- C3: the wetness driver in `READ` with exactly 4 bytes available
decodes, publishes and moves to `IDLE` in one `poll()`, but the first
rangefinder variant in `READ` with exactly 2 bytes available publishes the
distance and leaves the state at `READ`: its `case READ:` has no
`state = IDLE` assignment, unlike both sibling drivers. -/
theorem C3_variantB_never_returns_to_idle :
    ((VariantA.loop ⟨0, .READ⟩ ⟨0, 0, 4, [16, 0, 200, 0]⟩).1.state
        = VariantA.LeafWetnessSensorState.IDLE)
  ∧ ((VariantB.loop ⟨0, .READ⟩ ⟨0, 0, 2, [1, 44]⟩).2.pubDistance = [310])
  ∧ ((VariantB.loop ⟨0, .READ⟩ ⟨0, 0, 2, [1, 44]⟩).1
        = ⟨0, VariantB.Sen0590SensorState.READ⟩) := by
  decide

/-- C4: for every 4-byte input the wetness driver in `READ` with 4 bytes
available publishes exactly one wetness value and one temperature value,
each a little-endian signed 16-bit integer divided by 100 (first pair →
wetness, second pair → temperature), and moves to `IDLE`. -/
theorem C4_wetness_decode (s n st b0 b1 b2 b3 : Nat)
    (h0 : b0 < 256) (h1 : b1 < 256) (h2 : b2 < 256) (h3 : b3 < 256) :
    ((VariantA.loop ⟨s, .READ⟩
        ⟨n, st, 4, [(b0 : Int), (b1 : Int), (b2 : Int), (b3 : Int)]⟩).2.pubWetness
        = [(int16OfBytes b0 b1 : ℚ) / 100])
  ∧ ((VariantA.loop ⟨s, .READ⟩
        ⟨n, st, 4, [(b0 : Int), (b1 : Int), (b2 : Int), (b3 : Int)]⟩).2.pubTemperature
        = [(int16OfBytes b2 b3 : ℚ) / 100])
  ∧ ((VariantA.loop ⟨s, .READ⟩
        ⟨n, st, 4, [(b0 : Int), (b1 : Int), (b2 : Int), (b3 : Int)]⟩).1.state
        = .IDLE) := by
  refine ⟨?_, ?_, ?_⟩ <;>
    simp [VariantA.loop, VariantA.readPhase, noEff,
          toByte_coe b0 h0, toByte_coe b1 h1, toByte_coe b2 h2, toByte_coe b3 h3]

/-- C4 witness: bytes `[0x10, 0x00, 0xC8, 0x00]` decode to wetness
`16/100 = 0.16` and temperature `200/100 = 2`. -/
theorem C4_wetness_decode_witness :
    ((VariantA.loop ⟨0, .READ⟩
        ⟨0, 0, 4, [((16 : Nat) : Int), ((0 : Nat) : Int),
                   ((200 : Nat) : Int), ((0 : Nat) : Int)]⟩).2.pubWetness
        = [(16 : ℚ) / 100])
  ∧ ((VariantA.loop ⟨0, .READ⟩
        ⟨0, 0, 4, [((16 : Nat) : Int), ((0 : Nat) : Int),
                   ((200 : Nat) : Int), ((0 : Nat) : Int)]⟩).2.pubTemperature
        = [(2 : ℚ)]) := by
  have h := C4_wetness_decode 0 0 0 16 0 200 0
    (by decide) (by decide) (by decide) (by decide)
  exact ⟨by rw [h.1]; norm_num [int16OfBytes],
         by rw [h.2.1]; norm_num [int16OfBytes]⟩

/-- C5: both rangefinder variants decode a 2-byte read `[hi, lo]` as the
big-endian value `hi * 256 + lo` plus the fixed offset 10 and publish it as
a single integer; no range check restricts the bytes. -/
theorem C5_range_decode (hi lo s n : Nat) (hh : hi < 256) (hl : lo < 256) :
    ((VariantB.loop ⟨s, .READ⟩ ⟨n, 0, 2, [(hi : Int), (lo : Int)]⟩).2.pubDistance
        = [(hi : Int) * 256 + (lo : Int) + 10])
  ∧ ((VariantC.loop ⟨0, 0, .READ⟩ ⟨100, 0, 2, [(hi : Int), (lo : Int)]⟩).2.pubDistance
        = [(hi : Int) * 256 + (lo : Int) + 10]) := by
  constructor
  · simp [VariantB.loop, noEff]
  · simp [VariantC.loop, VariantC.read_wait_period, sub32, W32, noEff]

/-- C5 witness: bytes `[0x01, 0x2C]` decode to `1*256 + 44 + 10 = 310` in
both rangefinder variants. -/
theorem C5_range_decode_witness :
    ((VariantB.loop ⟨0, .READ⟩
        ⟨0, 0, 2, [((1 : Nat) : Int), ((44 : Nat) : Int)]⟩).2.pubDistance
        = [(310 : Int)])
  ∧ ((VariantC.loop ⟨0, 0, .READ⟩
        ⟨100, 0, 2, [((1 : Nat) : Int), ((44 : Nat) : Int)]⟩).2.pubDistance
        = [(310 : Int)]) := by
  have h := C5_range_decode 1 44 0 0 (by decide) (by decide)
  exact ⟨by rw [h.1]; decide, by rw [h.2]; decide⟩

/-- C6 counterexample: the wetness driver does not check the
`endTransmission()` status of the read-address write: in `READY` with a
failing bus (status 1) it still issues `requestFrom(address, 4)` and moves
to `READ`, instead of returning early with the state unchanged as the claim
asserts for every variant. -/
theorem C6_wetness_ignores_read_cmd_status :
    ((VariantA.loop ⟨0, .READY⟩ ⟨0, 1, 0, []⟩).1.state
        = VariantA.LeafWetnessSensorState.READ)
  ∧ ((VariantA.loop ⟨0, .READY⟩ ⟨0, 1, 0, []⟩).2.requests
        = [(VariantA.address, 4)]) := by
  decide

/-- C6 (amended): in the two rangefinder variants a non-zero status on the
read-address write makes the `poll()` return early: the whole driver state
(including `startRead` in variant C) is unchanged, the only effect is the
failed write itself — no `requestFrom`, no read, nothing published — so the
next `poll()` retries the same write. The wetness variant ignores the
status and proceeds to `READ` regardless. -/
theorem C6_readcmd_failure_retries (sb cq cr : Nat) (env : Env)
    (hfail : env.endStatus ≠ 0)
    (hc : VariantC.request_wait_period ≤ sub32 env.now cq) :
    (VariantB.loop ⟨sb, .READY⟩ env).1 = ⟨sb, .READY⟩
  ∧ (VariantB.loop ⟨sb, .READY⟩ env).2
      = { noEff with writes := [(VariantB.address, [0x02])] }
  ∧ (VariantC.loop ⟨cq, cr, .READY⟩ env).1 = ⟨cq, cr, .READY⟩
  ∧ (VariantC.loop ⟨cq, cr, .READY⟩ env).2
      = { noEff with writes := [(VariantC.address, [0x02])] } := by
  have eB : VariantB.loop ⟨sb, .READY⟩ env
      = if env.endStatus ≠ 0 then
          (⟨sb, .READY⟩, { noEff with writes := [(VariantB.address, [0x02])] })
        else
          (⟨sb, .READ⟩, { noEff with writes := [(VariantB.address, [0x02])],
                                     requests := [(VariantB.address, 2)] }) := rfl
  have eC : VariantC.loop ⟨cq, cr, .READY⟩ env
      = if VariantC.request_wait_period > sub32 env.now cq then
          (⟨cq, cr, .READY⟩, noEff)
        else if env.endStatus ≠ 0 then
          (⟨cq, cr, .READY⟩, { noEff with writes := [(VariantC.address, [0x02])] })
        else
          (⟨cq, env.now, .READ⟩,
           { noEff with writes := [(VariantC.address, [0x02])] }) := rfl
  rw [eB, if_pos hfail, eC, if_neg (by omega), if_pos hfail]
  exact ⟨rfl, rfl, rfl, rfl⟩

/-- C6 witness: with `startRequest = 0`, `now = 50` (request settle
elapsed) and a failing bus, both rangefinder variants keep their state and
timers. -/
theorem C6_readcmd_failure_retries_witness :
    (VariantB.loop ⟨0, .READY⟩ ⟨50, 1, 0, []⟩).1
      = (⟨0, VariantB.Sen0590SensorState.READY⟩ : VariantB.Sen0590)
  ∧ (VariantC.loop ⟨0, 0, .READY⟩ ⟨50, 1, 0, []⟩).1
      = (⟨0, 0, VariantC.Sen0590SensorState.READY⟩ : VariantC.Sen0590) := by
  have h := C6_readcmd_failure_retries 0 0 0 ⟨50, 1, 0, []⟩
    (by decide) (by decide)
  exact ⟨h.1, h.2.2.1⟩

/-- C7: variant C in `READ` (no clock wrap): once
`now - startRead ≥ read_wait_period` (20 ms, boundary included) the
`poll()` issues `requestFrom(address, 2)`, reads 2 bytes unconditionally —
for any `available` count — publishes `buf[0]*256 + buf[1] + 10` and goes
`IDLE`; below the threshold the call changes nothing and touches no bus. -/
theorem C7_two_phase_read (cq cr : Nat) (env : Env)
    (hs : cr ≤ env.now) (hn : env.now < W32) :
    (VariantC.read_wait_period ≤ env.now - cr →
        (VariantC.loop ⟨cq, cr, .READ⟩ env).1.state = .IDLE
      ∧ (VariantC.loop ⟨cq, cr, .READ⟩ env).2.requests = [(VariantC.address, 2)]
      ∧ (VariantC.loop ⟨cq, cr, .READ⟩ env).2.readCount = 2
      ∧ (VariantC.loop ⟨cq, cr, .READ⟩ env).2.pubDistance
          = [env.readData.getD 0 (-1) * 256 + env.readData.getD 1 (-1) + 10])
  ∧ (env.now - cr < VariantC.read_wait_period →
        VariantC.loop ⟨cq, cr, .READ⟩ env = (⟨cq, cr, .READ⟩, noEff)) := by
  have eC : VariantC.loop ⟨cq, cr, .READ⟩ env
      = if VariantC.read_wait_period > sub32 env.now cr then
          (⟨cq, cr, .READ⟩, noEff)
        else
          (⟨cq, cr, .IDLE⟩,
           { noEff with requests := [(VariantC.address, 2)], readCount := 2,
                        pubDistance := [env.readData.getD 0 (-1) * 256
                                          + env.readData.getD 1 (-1) + 10] }) := rfl
  rw [sub32_eq env.now cr hs hn] at eC
  constructor
  · intro h
    rw [eC, if_neg (by omega)]
    exact ⟨rfl, rfl, rfl, rfl⟩
  · intro h
    rw [eC, if_pos (by omega)]

/-- C7 witness: at exactly 20 ms elapsed the read fires and publishes
`1*256 + 44 + 10 = 310`; at 19 ms the poll is a pure no-op. -/
theorem C7_two_phase_read_witness :
    ((VariantC.loop ⟨0, 0, .READ⟩ ⟨20, 0, 0, [1, 44]⟩).1.state
        = VariantC.Sen0590SensorState.IDLE)
  ∧ ((VariantC.loop ⟨0, 0, .READ⟩ ⟨20, 0, 0, [1, 44]⟩).2.pubDistance = [310])
  ∧ (VariantC.loop ⟨0, 0, .READ⟩ ⟨19, 0, 0, [1, 44]⟩
        = (⟨0, 0, .READ⟩, noEff)) := by
  have h1 := (C7_two_phase_read 0 0 ⟨20, 0, 0, [1, 44]⟩
    (by decide) (by decide)).1 (by decide)
  have h2 := (C7_two_phase_read 0 0 ⟨19, 0, 0, [1, 44]⟩
    (by decide) (by decide)).2 (by decide)
  refine ⟨h1.1, ?_, h2⟩
  rw [h1.2.2.2]
  decide

/-- Helper for C8: iterated polls in `IDLE` never change the wetness
driver. -/
theorem VariantA.loopManyIdleA (s : Nat) (envs : List Env) :
    VariantA.loopMany ⟨s, .IDLE⟩ envs = ⟨s, .IDLE⟩ := by
  induction envs with
  | nil => rfl
  | cons e t ih => exact ih

/-- Helper for C8: iterated polls in `IDLE` never change the first
rangefinder driver. -/
theorem VariantB.loopManyIdleB (s : Nat) (envs : List Env) :
    VariantB.loopMany ⟨s, .IDLE⟩ envs = ⟨s, .IDLE⟩ := by
  induction envs with
  | nil => rfl
  | cons e t ih => exact ih

/-- Helper for C8: iterated polls in `IDLE` never change the two-phase
rangefinder driver. -/
theorem VariantC.loopManyIdleC (q r : Nat) (envs : List Env) :
    VariantC.loopMany ⟨q, r, .IDLE⟩ envs = ⟨q, r, .IDLE⟩ := by
  induction envs with
  | nil => rfl
  | cons e t ih => exact ih

/-- C8: in every variant a `poll()` in `IDLE` returns the driver fields
unchanged with the empty effect record (no write, no `requestFrom`, no
read, nothing published), and any sequence of repeated polls in `IDLE`
leaves the fields unchanged. -/
theorem C8_idle_frame (sa sb cq cr : Nat) (env : Env) (envs : List Env) :
    VariantA.loop ⟨sa, .IDLE⟩ env = (⟨sa, .IDLE⟩, noEff)
  ∧ VariantB.loop ⟨sb, .IDLE⟩ env = (⟨sb, .IDLE⟩, noEff)
  ∧ VariantC.loop ⟨cq, cr, .IDLE⟩ env = (⟨cq, cr, .IDLE⟩, noEff)
  ∧ VariantA.loopMany ⟨sa, .IDLE⟩ envs = ⟨sa, .IDLE⟩
  ∧ VariantB.loopMany ⟨sb, .IDLE⟩ envs = ⟨sb, .IDLE⟩
  ∧ VariantC.loopMany ⟨cq, cr, .IDLE⟩ envs = ⟨cq, cr, .IDLE⟩ :=
  ⟨rfl, rfl, rfl, VariantA.loopManyIdleA sa envs,
   VariantB.loopManyIdleB sb envs, VariantC.loopManyIdleC cq cr envs⟩

/-- C9: in the availability-polled variants a `poll()` in `READ` with an
available count other than the expected one (4 for wetness, 2 for the
rangefinder) changes nothing, reads nothing and publishes nothing; and any
poll that does leave `READ` saw exactly the expected count. -/
theorem C9_partial_read_no_exit (sa sb : Nat) (env : Env) :
    (env.available ≠ 4 → VariantA.loop ⟨sa, .READ⟩ env = (⟨sa, .READ⟩, noEff))
  ∧ ((VariantA.loop ⟨sa, .READ⟩ env).1.state ≠ .READ → env.available = 4)
  ∧ (env.available ≠ 2 → VariantB.loop ⟨sb, .READ⟩ env = (⟨sb, .READ⟩, noEff))
  ∧ ((VariantB.loop ⟨sb, .READ⟩ env).1.state ≠ .READ → env.available = 2) := by
  refine ⟨?_, ?_, ?_, ?_⟩
  · intro h
    simp [VariantA.loop, VariantA.readPhase, h]
  · intro hst
    by_contra h
    exact hst (by simp [VariantA.loop, VariantA.readPhase, h])
  · intro h
    simp [VariantB.loop, h]
  · intro hst
    exact absurd
      (by by_cases h2 : env.available = 2 <;> simp [VariantB.loop, h2]) hst

/-- C9 witness: with 3 bytes available neither availability-polled driver
moves or publishes. -/
theorem C9_partial_read_no_exit_witness :
    VariantA.loop ⟨0, .READ⟩ ⟨0, 0, 3, []⟩
      = (⟨0, VariantA.LeafWetnessSensorState.READ⟩, noEff)
  ∧ VariantB.loop ⟨0, .READ⟩ ⟨0, 0, 3, []⟩
      = (⟨0, VariantB.Sen0590SensorState.READ⟩, noEff) := by
  have h := C9_partial_read_no_exit 0 0 ⟨0, 0, 3, []⟩
  exact ⟨h.1 (by decide), h.2.2.1 (by decide)⟩

/-- C10: in every variant the `poll()` in `REQUEST` ignores the
`endTransmission()` status of the measurement-request write — the
environment, including a failing status, is arbitrary — and still advances
the state (to `WAITING`, or `READY` in variant C) with
`startRequest = now`, so a failed measurement request is never retried
within the same transaction. -/
theorem C10_request_status_ignored (sa sb cq cr : Nat) (env : Env) :
    (VariantA.loop ⟨sa, .REQUEST⟩ env).1
      = (⟨env.now, .WAITING⟩ : VariantA.LeafWetness)
  ∧ (VariantB.loop ⟨sb, .REQUEST⟩ env).1
      = (⟨env.now, .WAITING⟩ : VariantB.Sen0590)
  ∧ (VariantC.loop ⟨cq, cr, .REQUEST⟩ env).1
      = (⟨env.now, cr, .READY⟩ : VariantC.Sen0590) :=
  ⟨rfl, rfl, rfl⟩
